import Mathlib

/-!
Verification development for the backend-tools-handbook repository: a static
documentation site consisting of a navigation descriptor (`sidebars.js`), a
site configuration (`docusaurus.config.js`) and a corpus of Markdown content
documents.  The configuration values are embedded below as Lean data,
transcribed field by field from the source, and the structural invariants of
the spec are proved over them.
-/

namespace BackendToolsHandbook

/-- Untyped JavaScript-object values, as they appear in the configuration
files: strings, booleans, arrays and objects (ordered field lists). -/
inductive JsValue where
  | str (s : String)
  | bool (b : Bool)
  | arr (elems : List JsValue)
  | obj (fields : List (String × JsValue))

/-- Look up the value of field `k` in an object's field list (first match). -/
def fieldVal (k : String) : List (String × JsValue) → Option JsValue
  | [] => none
  | (k2, v) :: rest => if k2 == k then some v else fieldVal k rest

/-- Shorthand for a `{type: 'doc', id, label}` sidebar entry, in the field
order used throughout `sidebars.js`. -/
def docEntry (id label : String) : JsValue :=
  .obj [("type", .str "doc"), ("id", .str id), ("label", .str label)]

/-- Shorthand for a `{type: 'category', label, items}` sidebar entry, in the
field order used throughout `sidebars.js`. -/
def categoryEntry (label : String) (items : List JsValue) : JsValue :=
  .obj [("type", .str "category"), ("label", .str label), ("items", .arr items)]

/-- The `tutorialSidebar` node sequence, transcribed from `sidebars.js`. -/
def tutorialSidebar : List JsValue :=
  [ docEntry "index" "Home",
    categoryEntry "cURL"
      [ docEntry "CURL_GUIDE" "Guide" ],
    categoryEntry "Postman"
      [ docEntry "POSTMAN_GUIDE_PART1_BASICS" "Basics",
        docEntry "POSTMAN_GUIDE_PART2_ADVANCED" "Advanced" ],
    categoryEntry "Git"
      [ docEntry "Git_Guide" "Guide" ],
    categoryEntry "SQL"
      [ docEntry "Introduction" "00 Introduction",
        docEntry "Getting-Started" "01 Getting Started",
        docEntry "Querying-Data" "02 Querying Data",
        docEntry "Filtering-Data" "03 Filtering Data",
        docEntry "Joining-Tables" "04 Joining Tables",
        docEntry "Grouping-Data" "05 Grouping Data",
        docEntry "Set-Operations" "06 Set Operations",
        docEntry "Modifying-Data" "07 Modifying Data",
        docEntry "Subqueries" "08 Subqueries",
        docEntry "Data-Types" "09 Data Types",
        docEntry "Managing-Tables" "10 Managing Tables",
        docEntry "Constraints" "11 Constraints" ] ]

/-- The whole exported `sidebars` object of `sidebars.js`. -/
def sidebars : JsValue :=
  .obj [("tutorialSidebar", .arr tutorialSidebar)]

/-- The document ids referenced by `doc` leaves of a node sequence, in
sidebar order, descending into `category` items.  `fuel` bounds the nesting
depth explored (the actual tree has depth 2). -/
def docIdsOf (fuel : Nat) (nodes : List JsValue) : List String :=
  match fuel with
  | 0 => []
  | fuel + 1 =>
    (nodes.map (fun v =>
      match v with
      | .obj fs =>
        match fieldVal "type" fs with
        | some (.str "doc") =>
          (match fieldVal "id" fs with
           | some (.str i) => [i]
           | _ => [])
        | some (.str "category") =>
          (match fieldVal "items" fs with
           | some (.arr xs) => docIdsOf fuel xs
           | _ => [])
        | _ => []
      | _ => [])).flatten

/-- Document ids of the content documents visible in the repository snapshot:
the three named Markdown files (`Git_Guide.md`, `Introduction.md`,
`Joining-Tables.md`) and the Markdown modules present in the remaining source
files (the index page and the SQL modules on set operations, data
modification, data types, subqueries, getting started, table management,
constraints and filtering). -/
def snapshotDocIds : List String :=
  [ "index", "Git_Guide", "Introduction", "Joining-Tables",
    "Set-Operations", "Modifying-Data", "Data-Types", "Subqueries",
    "Getting-Started", "Managing-Tables", "Constraints", "Filtering-Data" ]

/-- Modelled from the spec: the content corpus also holds the Markdown
modules whose files are not part of the snapshot — the cURL guide, the two
Postman guides, and the SQL querying and grouping modules.  The spec lists
cURL, Postman, Git and SQL as the covered learning tracks, and the index
document names the cURL Guide, Postman Basics and the full SQL course as
entry points. -/
def specModelledDocIds : List String :=
  [ "CURL_GUIDE", "POSTMAN_GUIDE_PART1_BASICS", "POSTMAN_GUIDE_PART2_ADVANCED",
    "Querying-Data", "Grouping-Data" ]

/-- All document ids of the content corpus. -/
def contentDocIds : List String :=
  snapshotDocIds ++ specModelledDocIds

/-- The clock value read by `new Date()` when the configuration module is
evaluated; only `getFullYear` is ever consulted by the source. -/
structure JsDate where
  year : Nat
  month : Nat
  day : Nat
  hour : Nat
  minute : Nat
  second : Nat
deriving DecidableEq

/-- JavaScript's `Date.prototype.getFullYear`. -/
def getFullYear (d : JsDate) : Nat := d.year

/-- The `future` flags of the configuration. -/
structure FutureFlags where
  v4 : Bool
deriving DecidableEq

/-- The `i18n` block of the configuration. -/
structure I18nConfig where
  defaultLocale : String
  locales : List String
deriving DecidableEq

/-- The `docs` options of the classic preset. -/
structure DocsOptions where
  sidebarPath : String
  routeBasePath : String
  editUrl : String
deriving DecidableEq

/-- The `theme` options of the classic preset. -/
structure ThemeOptions where
  customCss : String
deriving DecidableEq

/-- One entry of the classic preset options (`docs`, `blog`, `theme`);
`blog` is the boolean flag the source sets to `false` to disable the blog
plugin. -/
structure PresetOptions where
  docs : DocsOptions
  blog : Bool
  theme : ThemeOptions
deriving DecidableEq

/-- The `colorMode` block of the theme configuration. -/
structure ColorMode where
  respectPrefersColorScheme : Bool
deriving DecidableEq

/-- The navbar logo. -/
structure Logo where
  alt : String
  src : String
deriving DecidableEq

/-- A navbar item; the source declares none, so no fields are modelled. -/
structure NavbarItem where
deriving DecidableEq

/-- The `navbar` block of the theme configuration. -/
structure Navbar where
  title : String
  logo : Logo
  items : List NavbarItem
deriving DecidableEq

/-- The `footer` block of the theme configuration. -/
structure Footer where
  style : String
  copyright : String
deriving DecidableEq

/-- The `prism` block of the theme configuration; the two themes are the
`prism-react-renderer` themes imported at the top of the source file. -/
structure Prism where
  theme : String
  darkTheme : String
  additionalLanguages : List String
deriving DecidableEq

/-- The `themeConfig` block of the configuration. -/
structure ThemeConfig where
  colorMode : ColorMode
  navbar : Navbar
  footer : Footer
  prism : Prism
deriving DecidableEq

/-- The whole configuration record of `docusaurus.config.js`. -/
structure Config where
  title : String
  tagline : String
  favicon : String
  future : FutureFlags
  url : String
  baseUrl : String
  organizationName : String
  projectName : String
  onBrokenLinks : String
  i18n : I18nConfig
  presets : List PresetOptions
  themeConfig : ThemeConfig
deriving DecidableEq

/-- The footer copyright template up to the `new Date().getFullYear()`
interpolation, transcribed verbatim (braces written as escapes). -/
def copyrightPrefix : String :=
  "
            <style>
              .footer-container \x7b
                display: flex;
                justify-content: space-between;
                align-items: center;
                padding: 2rem;
                font-size: 1.1rem;
                gap: 1rem;
                line-height: 1.6;
              \x7d
              
              @media (max-width: 768px) \x7b
                .footer-container \x7b
                  flex-direction: column;
                  text-align: center;
                  justify-content: center;
                  font-size: 1rem;
                \x7d
              \x7d
            </style>
            
            <div class=\"footer-container\">
              
              <div>
                Copyright © "

/-- The footer copyright template after the `new Date().getFullYear()`
interpolation, transcribed verbatim. -/
def copyrightSuffix : String :=
  "
                <a href=\"https://pragnakalp.com\" target=\"_blank\" rel=\"noopener noreferrer\" 
                  style=\"color: #0ea5e9; text-decoration: none; font-weight: 500; margin-left: 0.25rem;\">
                  Pragnakalp Techlabs
                </a>. All rights reserved.
              </div>

              <div>
                <strong>Contributors:</strong> Rahul, Nikunj, Neel, Meet, Dhvanil, Mansi, Darshit
              </div>

            </div>
          "

/-- The footer copyright string as evaluated at date `now`: the template
with `new Date().getFullYear()` interpolated. -/
def copyrightAt (now : JsDate) : String :=
  copyrightPrefix ++ toString (getFullYear now) ++ copyrightSuffix

/-- The configuration value exported by `docusaurus.config.js`, as evaluated
at date `now` (the clock enters only through the footer copyright). -/
def configAt (now : JsDate) : Config :=
  { title := "backend-tools-handbook",
    tagline := "Comprehensive documentation of essential backend development tools including cURL, Postman, PostgreSQL, Git, Docker, and other utilities used in real-world projects.",
    favicon := "img/pk-color-128.png",
    future := { v4 := true },
    url := "https://pragnakalp.github.io",
    baseUrl := "/backend-tools-handbook/",
    organizationName := "pragnakalp",
    projectName := "backend-tools-handbook",
    onBrokenLinks := "throw",
    i18n := { defaultLocale := "en", locales := ["en"] },
    presets :=
      [ { docs :=
            { sidebarPath := "./sidebars.js",
              routeBasePath := "/",
              editUrl := "https://github.com/pragnakalp/backend-tools-handbook/tree/main/" },
          blog := false,
          theme := { customCss := "./src/css/custom.css" } } ],
    themeConfig :=
      { colorMode := { respectPrefersColorScheme := true },
        navbar :=
          { title := "Backend-tools-handbook",
            logo := { alt := "backend-tools-handbook Logo", src := "img/pk-color-128.png" },
            items := [] },
        footer := { style := "dark", copyright := copyrightAt now },
        prism :=
          { theme := "github",
            darkTheme := "dracula",
            additionalLanguages := ["python", "json"] } } }

/-- The two values the repository hands to the site generator, as evaluated
at date `now`: the configuration record and the navigation descriptor. -/
def buildInputsAt (now : JsDate) : Config × JsValue :=
  (configAt now, sidebars)

/-- Conformance of a node sequence to the generator's expected sidebar
shape, as the spec states it: each node is either a record
`{type: 'doc', id, label}` or a record `{type: 'category', label, items}`
whose items recursively satisfy the same shape.  `fuel` bounds the nesting
depth explored. -/
def conformsNodes (fuel : Nat) (nodes : List JsValue) : Bool :=
  match fuel with
  | 0 => false
  | fuel + 1 =>
    nodes.all (fun v =>
      match v with
      | .obj [("type", .str "doc"), ("id", .str _), ("label", .str _)] => true
      | .obj [("type", .str "category"), ("label", .str _), ("items", .arr xs)] =>
        conformsNodes fuel xs
      | _ => false)

/-- The `label` field of a node, when it is a string. -/
def labelOf : JsValue → Option String
  | .obj fs =>
    match fieldVal "label" fs with
    | some (.str l) => some l
    | _ => none
  | _ => none

/-- Whether a node is a `{type: 'doc'}` leaf. -/
def isDocLeaf : JsValue → Bool
  | .obj fs =>
    match fieldVal "type" fs with
    | some (.str "doc") => true
    | _ => false
  | _ => false

/-- Whether a node is a `{type: 'category'}` node. -/
def isCategoryNode : JsValue → Bool
  | .obj fs =>
    match fieldVal "type" fs with
    | some (.str "category") => true
    | _ => false
  | _ => false

/-- The `id` field of a node, when it is a string. -/
def docIdOf : JsValue → Option String
  | .obj fs =>
    match fieldVal "id" fs with
    | some (.str i) => some i
    | _ => none
  | _ => none

/-- The `items` field of a node, when it is an array. -/
def itemsOf : JsValue → Option (List JsValue)
  | .obj fs =>
    match fieldVal "items" fs with
    | some (.arr xs) => some xs
    | _ => none
  | _ => none

/-- Whether the strings of a list are pairwise distinct. -/
def pairwiseDistinct : List String → Bool
  | [] => true
  | x :: xs => !(xs.contains x) && pairwiseDistinct xs

/-- Whether, at every level of a node sequence, no two sibling nodes carry
the same label: the labels of the sequence itself are pairwise distinct and
the items of every node recursively satisfy the same property.  `fuel`
bounds the nesting depth explored. -/
def siblingLabelsDistinct (fuel : Nat) (nodes : List JsValue) : Bool :=
  match fuel with
  | 0 => false
  | fuel + 1 =>
    pairwiseDistinct (nodes.filterMap labelOf) &&
    nodes.all (fun v =>
      match itemsOf v with
      | some xs => siblingLabelsDistinct fuel xs
      | none => true)

/-- The item lists of every `category` node labelled `lab` anywhere in a
node sequence.  `fuel` bounds the nesting depth explored. -/
def categoryItemsLabeled (fuel : Nat) (lab : String) (nodes : List JsValue) :
    List (List JsValue) :=
  match fuel with
  | 0 => []
  | fuel + 1 =>
    (nodes.map (fun v =>
      match v with
      | .obj fs =>
        match fieldVal "type" fs, fieldVal "label" fs, fieldVal "items" fs with
        | some (.str "category"), some (.str l), some (.arr xs) =>
          (if l == lab then [xs] else []) ++ categoryItemsLabeled fuel lab xs
        | _, _, _ => []
      | _ => [])).flatten

/-- Every object key occurring anywhere in a value.  `fuel` bounds the
nesting depth explored. -/
def jsKeys (fuel : Nat) (v : JsValue) : List String :=
  match fuel with
  | 0 => []
  | fuel + 1 =>
    match v with
    | .obj fs =>
      fs.map Prod.fst ++ (fs.map (fun p => jsKeys fuel p.snd)).flatten
    | .arr xs => (xs.map (jsKeys fuel)).flatten
    | _ => []

/-- Every key of the `docusaurus.config.js` object literal, at any nesting
depth, in source order. -/
def configAllKeys : List String :=
  [ "title", "tagline", "favicon",
    "future", "v4",
    "url", "baseUrl", "organizationName", "projectName",
    "onBrokenLinks",
    "i18n", "defaultLocale", "locales",
    "presets", "docs", "sidebarPath", "routeBasePath", "editUrl",
    "blog", "theme", "customCss",
    "themeConfig",
    "colorMode", "respectPrefersColorScheme",
    "navbar", "title", "logo", "alt", "src", "items",
    "footer", "style", "copyright",
    "prism", "theme", "darkTheme", "additionalLanguages" ]

/-- Modelled from the spec: the failure-policy options that the external
site generator understands — the knobs that choose what happens when the
build encounters a problem (dangling links, dangling anchors, dangling
Markdown links, duplicate routes). -/
def failurePolicyOptionNames : List String :=
  [ "onBrokenLinks", "onBrokenMarkdownLinks", "onBrokenAnchors",
    "onDuplicateRoutes" ]

/-- The top-level keys of the `docusaurus.config.js` object literal, in
source order. -/
def configTopLevelKeys : List String :=
  [ "title", "tagline", "favicon", "future", "url", "baseUrl",
    "organizationName", "projectName", "onBrokenLinks", "i18n",
    "presets", "themeConfig" ]

/-- The string atoms of the configuration record other than the footer
copyright, gathered by projection. -/
def configStringsBase (now : JsDate) : List String :=
  let c := configAt now
  [ c.title, c.tagline, c.favicon, c.url, c.baseUrl, c.organizationName,
    c.projectName, c.onBrokenLinks, c.i18n.defaultLocale ] ++
  c.i18n.locales ++
  (c.presets.map (fun p =>
    [p.docs.sidebarPath, p.docs.routeBasePath, p.docs.editUrl, p.theme.customCss])).flatten ++
  [ c.themeConfig.navbar.title, c.themeConfig.navbar.logo.alt,
    c.themeConfig.navbar.logo.src, c.themeConfig.footer.style,
    c.themeConfig.prism.theme, c.themeConfig.prism.darkTheme ] ++
  c.themeConfig.prism.additionalLanguages

/-- Every string atom of the configuration record, the clock-dependent
footer copyright listed last. -/
def configStringsAt (now : JsDate) : List String :=
  configStringsBase now ++ [(configAt now).themeConfig.footer.copyright]

set_option maxRecDepth 100000

/-- The footer copyright string is at least as long as its template prefix,
hence far longer than any document id. -/
theorem copyright_length_lower (now : JsDate) : 700 ≤ (copyrightAt now).length := by
  unfold copyrightAt
  rw [String.length_append, String.length_append]
  have h : 700 ≤ copyrightPrefix.length := by decide
  omega

/-- C1: every `doc` leaf of the `tutorialSidebar` navigation descriptor
references a document id that exists in the content corpus, so no dangling
leaf exists. -/
theorem claim_C1_leaf_ids_resolve :
    ∀ id ∈ docIdsOf 10 tutorialSidebar, id ∈ contentDocIds := by decide

/-- Witness for C1 at the concrete leaf id `index`. -/
theorem claim_C1_leaf_ids_resolve_witness :
    "index" ∈ docIdsOf 10 tutorialSidebar ∧ "index" ∈ contentDocIds :=
  ⟨by decide, claim_C1_leaf_ids_resolve "index" (by decide)⟩

/-- C2: evaluating the configuration and the navigation descriptor at two
clock readings with the same calendar year yields identical values — the
clock enters the build inputs only through `new Date().getFullYear()` in the
footer copyright, so on unchanged input the evaluation is deterministic
modulo that timestamp-derived year. -/
theorem claim_C2_build_deterministic (d1 d2 : JsDate)
    (h : getFullYear d1 = getFullYear d2) :
    buildInputsAt d1 = buildInputsAt d2 := by
  unfold buildInputsAt configAt copyrightAt
  rw [h]

/-- Witness for C2 at two concrete dates of the same year. -/
theorem claim_C2_build_deterministic_witness :
    getFullYear ⟨2025, 1, 2, 10, 30, 0⟩ = getFullYear ⟨2025, 12, 31, 23, 59, 59⟩ ∧
    buildInputsAt ⟨2025, 1, 2, 10, 30, 0⟩ = buildInputsAt ⟨2025, 12, 31, 23, 59, 59⟩ :=
  ⟨rfl, claim_C2_build_deterministic ⟨2025, 1, 2, 10, 30, 0⟩ ⟨2025, 12, 31, 23, 59, 59⟩ rfl⟩

/-- C3: the configuration sets `onBrokenLinks` to `'throw'`, and among all
keys of the repository's own configuration files (the configuration record
at any nesting depth and the sidebar object) the only failure-policy option
that occurs is `onBrokenLinks`. -/
theorem claim_C3_broken_links_policy (now : JsDate) :
    (configAt now).onBrokenLinks = "throw" ∧
    configAllKeys.filter (fun k => failurePolicyOptionNames.contains k)
      = ["onBrokenLinks"] ∧
    (jsKeys 10 sidebars).all (fun k => !(failurePolicyOptionNames.contains k)) = true :=
  ⟨rfl, by decide, by decide⟩

/-- Witness for C3 at a concrete date. -/
theorem claim_C3_broken_links_policy_witness :
    (configAt ⟨2025, 10, 12, 0, 0, 0⟩).onBrokenLinks = "throw" ∧
    configAllKeys.filter (fun k => failurePolicyOptionNames.contains k)
      = ["onBrokenLinks"] ∧
    (jsKeys 10 sidebars).all (fun k => !(failurePolicyOptionNames.contains k)) = true :=
  claim_C3_broken_links_policy ⟨2025, 10, 12, 0, 0, 0⟩

/-- C4: every node of the navigation descriptor conforms to the generator's
expected shape — an ordered sequence of nodes, each either a record
`{type: 'doc', id, label}` or a record `{type: 'category', label, items}`
whose items recursively satisfy the same shape. -/
theorem claim_C4_sidebar_conforms :
    conformsNodes 10 tutorialSidebar = true := by decide

/-- C5: the navigation descriptor contains exactly one category labelled
`SQL`, and the document ids of its items start with `Introduction`,
`Getting-Started`, `Querying-Data` as consecutive entries in exactly that
order from the first position. -/
theorem claim_C5_sql_category_order :
    (categoryItemsLabeled 10 "SQL" tutorialSidebar).length = 1 ∧
    (docIdsOf 10 ((categoryItemsLabeled 10 "SQL" tutorialSidebar).headD [])).take 3
      = ["Introduction", "Getting-Started", "Querying-Data"] := by
  exact ⟨by decide, by decide⟩

/-- C6: at every level of the navigation tree, the root sequence included,
no two sibling nodes carry the same label. -/
theorem claim_C6_sibling_labels_distinct :
    siblingLabelsDistinct 10 tutorialSidebar = true := by decide

/-- C7: the site configuration is a key/value record of options — its
top-level keys are pairwise distinct — and it holds no reference to any
other entity: no string value anywhere in the record equals a document id
referenced by the navigation descriptor. -/
theorem claim_C7_config_flat_record (now : JsDate) :
    pairwiseDistinct configTopLevelKeys = true ∧
    ∀ id ∈ docIdsOf 10 tutorialSidebar, id ∉ configStringsAt now := by
  refine ⟨by decide, ?_⟩
  intro id hid hmem
  have hlen : id.length < 700 := by
    have hall : ∀ x ∈ docIdsOf 10 tutorialSidebar, x.length < 700 := by decide
    exact hall id hid
  rcases List.mem_append.mp hmem with h | h
  · rw [show configStringsBase now = configStringsBase ⟨0, 0, 0, 0, 0, 0⟩ from rfl] at h
    have hnone : ∀ x ∈ docIdsOf 10 tutorialSidebar,
        x ∉ configStringsBase ⟨0, 0, 0, 0, 0, 0⟩ := by decide
    exact hnone id hid h
  · have heq : id = copyrightAt now := by simpa using h
    have hge : 700 ≤ (copyrightAt now).length := copyright_length_lower now
    rw [heq] at hlen
    omega

/-- Witness for C7 at a concrete date and the concrete document id `index`. -/
theorem claim_C7_config_flat_record_witness :
    "index" ∉ configStringsAt ⟨2025, 1, 1, 0, 0, 0⟩ :=
  (claim_C7_config_flat_record ⟨2025, 1, 1, 0, 0, 0⟩).2 "index" (by decide)

/-- C8: the navigation tree has depth exactly two — every top-level entry is
a `doc` leaf or a category, the only top-level `doc` leaf is the one with id
`index`, and the items of every category are `doc` leaves only, so no
category nests inside another. -/
theorem claim_C8_depth_two :
    tutorialSidebar.all (fun v => isDocLeaf v || isCategoryNode v) = true ∧
    (tutorialSidebar.filter isDocLeaf).map docIdOf = [some "index"] ∧
    tutorialSidebar.all (fun v =>
      match itemsOf v with
      | some xs => xs.all isDocLeaf
      | none => true) = true :=
  ⟨by decide, by decide, by decide⟩

/-- C9: the internationalization configuration is self-consistent — the
declared default locale is a member of the declared locales list, and that
list is the singleton `["en"]`. -/
theorem claim_C9_i18n_consistent (now : JsDate) :
    (configAt now).i18n.defaultLocale ∈ (configAt now).i18n.locales ∧
    (configAt now).i18n.locales = ["en"] :=
  ⟨show ("en" : String) ∈ ["en"] from by decide, rfl⟩

/-- Witness for C9 at a concrete date. -/
theorem claim_C9_i18n_consistent_witness :
    (configAt ⟨2025, 10, 12, 0, 0, 0⟩).i18n.defaultLocale
      ∈ (configAt ⟨2025, 10, 12, 0, 0, 0⟩).i18n.locales ∧
    (configAt ⟨2025, 10, 12, 0, 0, 0⟩).i18n.locales = ["en"] :=
  claim_C9_i18n_consistent ⟨2025, 10, 12, 0, 0, 0⟩

/-- C10: the sidebar is the only navigation surface the configuration
declares — the navbar items array is empty, the single classic preset
disables the blog, and docs are mounted at the site root. -/
theorem claim_C10_sidebar_only_navigation (now : JsDate) :
    (configAt now).themeConfig.navbar.items = [] ∧
    (configAt now).presets.map PresetOptions.blog = [false] ∧
    (configAt now).presets.map (fun p => p.docs.routeBasePath) = ["/"] :=
  ⟨rfl, rfl, rfl⟩

/-- Witness for C10 at a concrete date. -/
theorem claim_C10_sidebar_only_navigation_witness :
    (configAt ⟨2025, 10, 12, 0, 0, 0⟩).themeConfig.navbar.items = [] ∧
    (configAt ⟨2025, 10, 12, 0, 0, 0⟩).presets.map PresetOptions.blog = [false] ∧
    (configAt ⟨2025, 10, 12, 0, 0, 0⟩).presets.map (fun p => p.docs.routeBasePath)
      = ["/"] :=
  claim_C10_sidebar_only_navigation ⟨2025, 10, 12, 0, 0, 0⟩

end BackendToolsHandbook
